/- Verification of the road-network prototype compiler in
   src/game/transport/transport_planning/mod.rs (citybound).

   Shallow embedding conventions:
   * the scalar type `N` (`f32` in the source) is modelled as `ℚ`;
   * 2D points (`P2`) and vectors (`V2`) are concrete pairs of rationals;
   * the 2D geometry collaborator (the `descartes` crate, which is not part
     of this repository) is kept abstract as a bundle `Geo` of operations,
     following the capability list in the spec (sections 3 and 6);
   * fallible operations (`shift_orthogonally`, `subsection`, `Segment::line`,
     `CPath::new`, `CShape::new`, clipping) return `Option`; a clipper error
     is modelled as `none`;
   * `.unwrap()` / `.expect(..)` calls in the source (which panic on `None`)
     are modelled by `expectD` with an explicit default value, since the
     claims under study only concern non-panicking executions;
   * `CHashMap` keyed by `GestureSideID` is modelled as an association list
     in insertion order; `push_at` appends to the entry of a key;
   * Rust's stable `sort_by` / `sort_by_key` is modelled by the (equally
     stable, observably identical) insertion sort. -/
import Mathlib

namespace CB

/-- Scalar type: `descartes::N = f32`, modelled as `ℚ`. -/
abbrev N := ℚ

/-- 2D vector (`descartes::V2`), concrete. -/
structure V2 where
  x : N
  y : N
deriving DecidableEq

/-- 2D point (`descartes::P2`), concrete. -/
structure P2 where
  x : N
  y : N
deriving DecidableEq

instance : Add V2 := ⟨fun a b => ⟨a.x + b.x, a.y + b.y⟩⟩
instance : Sub V2 := ⟨fun a b => ⟨a.x - b.x, a.y - b.y⟩⟩
instance : Neg V2 := ⟨fun a => ⟨-a.x, -a.y⟩⟩
instance : SMul N V2 := ⟨fun c v => ⟨c * v.x, c * v.y⟩⟩
instance : HMul V2 N V2 := ⟨fun v c => ⟨v.x * c, v.y * c⟩⟩
instance : HDiv V2 N V2 := ⟨fun v c => ⟨v.x / c, v.y / c⟩⟩
instance : HAdd P2 V2 P2 := ⟨fun p v => ⟨p.x + v.x, p.y + v.y⟩⟩
instance : HSub P2 V2 P2 := ⟨fun p v => ⟨p.x - v.x, p.y - v.y⟩⟩
instance : HSub P2 P2 V2 := ⟨fun p q => ⟨p.x - q.x, p.y - q.y⟩⟩

theorem V2.add_def (a b : V2) : a + b = ⟨a.x + b.x, a.y + b.y⟩ := rfl
theorem V2.sub_def (a b : V2) : a - b = ⟨a.x - b.x, a.y - b.y⟩ := rfl
theorem V2.neg_def (a : V2) : -a = ⟨-a.x, -a.y⟩ := rfl
theorem V2.smul_def (c : N) (v : V2) : c • v = ⟨c * v.x, c * v.y⟩ := rfl
theorem V2.mulN_def (v : V2) (c : N) : v * c = ⟨v.x * c, v.y * c⟩ := rfl
theorem V2.divN_def (v : V2) (c : N) : v / c = ⟨v.x / c, v.y / c⟩ := rfl
theorem P2.addV_def (p : P2) (v : V2) : p + v = ⟨p.x + v.x, p.y + v.y⟩ := rfl
theorem P2.subV_def (p : P2) (v : V2) : p - v = ⟨p.x - v.x, p.y - v.y⟩ := rfl
theorem P2.subP_def (p q : P2) : p - q = (⟨p.x - q.x, p.y - q.y⟩ : V2) := rfl

/-- `descartes::WithUniqueOrthogonal::orthogonal`.  Modelled from the spec:
the geometry collaborator supplies a fixed orthogonal-vector convention; the
claims under study do not depend on its orientation. -/
def V2.orthogonal (v : V2) : V2 := ⟨-v.y, v.x⟩

/-- An intersection record `{along_a, along_b, point}` returned by the
two-curve `intersect` operation (spec section 3). -/
structure IntersectionPoint where
  along_a : N
  along_b : N
  point : P2
deriving DecidableEq

/-- `clipper::Mode` of the geometry collaborator. -/
inductive ClipMode where
  | Intersection : ClipMode
  | Union : ClipMode
deriving DecidableEq

/-- Modelled from the spec: the 2D geometry collaborator (the `descartes`
crate together with `stagemaster::geometry`, both outside this repository).
Bundle of the abstract types `Path`, `Shape`, `Segment`, and the operations
required by the compiler core, per the capability list of spec sections 3
and 6.  `clip` and path construction return `Option`; `none` models a
clipper error value (or an invalid construction).  `default_path`,
`default_shape` and `default_segment` serve as junk values for modelling
panicking `.unwrap()`/`.expect(..)` calls totally. -/
structure Geo where
  Path : Type
  Shape : Type
  Segment : Type
  length : Path → N
  along : Path → N → P2
  direction_along : Path → N → V2
  start : Path → P2
  endPoint : Path → P2
  start_direction : Path → V2
  end_direction : Path → V2
  reverse : Path → Path
  subsection : Path → N → N → Option Path
  shift_orthogonally : Path → N → Option Path
  segments : Path → List Segment
  concat : Path → Path → Option Path
  path_new : List Segment → Option Path
  shape_new : Path → Option Shape
  outline : Shape → Path
  contains : Shape → P2 → Bool
  segment_line : P2 → P2 → Option Segment
  intersect : Path → Path → List IntersectionPoint
  clip : ClipMode → Shape → Shape → Option (List Shape)
  band_outline : Path → N → Path
  outline_distance_to_path_distance : Path → N → N → N
  smooth_path_from : List P2 → Option Path
  is_roughly_within_p2 : P2 → P2 → N → Bool
  is_roughly_within_path : Path → Path → N → Bool
  default_path : Path
  default_shape : Shape
  default_segment : Segment

/-- Models `.unwrap()` / `.expect(..)`: the panic on `none` is replaced by an
explicit default value (the settled claims only concern non-panicking runs). -/
def expectD {α : Type} (o : Option α) (d : α) : α := o.getD d

/-- `descartes::Band`: a thick strip around a path (`Band::new(path, width)`). -/
structure Band (G : Geo) where
  path : G.Path
  width : N

/-- `Band::outline()`. -/
def bandOutline (G : Geo) (b : Band G) : G.Path := G.band_outline b.path b.width

/-- `Band::outline_distance_to_path_distance(s)`. -/
def bandDistToPath (G : Geo) (b : Band G) (d : N) : N :=
  G.outline_distance_to_path_distance b.path b.width d

-- Constants (mod.rs lines 140-142, 216, 409).
def LANE_WIDTH : N := 6.0
def LANE_DISTANCE : N := 0.8 * LANE_WIDTH
def CENTER_LANE_DISTANCE : N := LANE_DISTANCE * 1.1
def END_INTERSECTION_DEPTH : N := 15.0
def TRANSFER_LANE_DISTANCE_TOLERANCE : N := 0.3

/-- `RoadIntent` (mod.rs lines 16-19); `u8` lane counts modelled as `ℕ`. -/
structure RoadIntent where
  n_lanes_forward : ℕ
  n_lanes_backward : ℕ
deriving DecidableEq

/-- `ConnectionRole` (mod.rs lines 80-85). -/
structure ConnectionRole where
  straight : Bool
  u_turn : Bool
  inner_turn : Bool
  outer_turn : Bool
deriving DecidableEq

/-- `IntersectionConnector` (mod.rs lines 88-92). -/
structure IntersectionConnector where
  position : P2
  direction : V2
  role : ConnectionRole
deriving DecidableEq

/-- `IntersectionConnector::new` (mod.rs lines 95-107): all role flags start
`false`. -/
def IntersectionConnector.new (position : P2) (direction : V2) : IntersectionConnector :=
  ⟨position, direction, ⟨false, false, false, false⟩⟩

/-- `GestureSideID` (mod.rs line 110): a signed handle for one side of one
gesture. -/
structure GestureSideID where
  val : ℤ
deriving DecidableEq

/-- `GestureSideID::new_forward` (mod.rs lines 113-115). -/
def GestureSideID.new_forward (gesture_idx : ℕ) : GestureSideID :=
  ⟨(gesture_idx + 1 : ℤ)⟩

/-- `GestureSideID::new_backward` (mod.rs lines 117-119). -/
def GestureSideID.new_backward (gesture_idx : ℕ) : GestureSideID :=
  ⟨-((gesture_idx + 1 : ℤ))⟩

/-- `CHashMap<GestureSideID, CVec<IntersectionConnector>>` modelled as an
association list in insertion order. -/
abbrev ConnectorMap := List (GestureSideID × List IntersectionConnector)

/-- `CHashMap::push_at`: append `v` to the vector stored at key `k`,
creating the entry when absent. -/
def pushAt (m : ConnectorMap) (k : GestureSideID) (v : IntersectionConnector) : ConnectorMap :=
  match m with
  | [] => [(k, [v])]
  | (k2, vs) :: rest =>
    if k2 = k then (k2, vs ++ [v]) :: rest else (k2, vs) :: pushAt rest k v

/-- Lookup in a `ConnectorMap`; absent keys read as the empty vector. -/
def getAt (m : ConnectorMap) (k : GestureSideID) : List IntersectionConnector :=
  match m with
  | [] => []
  | (k2, vs) :: rest => if k2 = k then vs else getAt rest k

/-- `LanePrototype(CPath, CVec<bool>)` (mod.rs line 53). -/
structure LanePrototype (G : Geo) where
  path : G.Path
  timings : List Bool

/-- `TransferLanePrototype(CPath)` (mod.rs line 67). -/
structure TransferLanePrototype (G : Geo) where
  path : G.Path

/-- `IntersectionPrototype` (mod.rs lines 123-128). -/
structure IntersectionPrototype (G : Geo) where
  shape : G.Shape
  incoming : ConnectorMap
  outgoing : ConnectorMap
  connecting_lanes : List ((GestureSideID × GestureSideID) × List (LanePrototype G))

/-- `LanePrototype::morphable_from` (mod.rs lines 56-63). -/
def LanePrototype.morphable_from {G : Geo} (l1 l2 : LanePrototype G) : Bool :=
  G.is_roughly_within_path l1.path l2.path 0.05 && (l1.timings == l2.timings)

/-- `TransferLanePrototype::morphable_from` (mod.rs lines 70-76). -/
def TransferLanePrototype.morphable_from {G : Geo} (l1 l2 : TransferLanePrototype G) : Bool :=
  G.is_roughly_within_path l1.path l2.path 0.05

/-- `IntersectionPrototype::morphable_from` (mod.rs lines 131-137). -/
def IntersectionPrototype.morphable_from {G : Geo} (i1 i2 : IntersectionPrototype G) : Bool :=
  G.is_roughly_within_path (G.outline i1.shape) (G.outline i2.shape) 0.1

/-- `RoadPrototype` (mod.rs lines 28-33). -/
inductive RoadPrototype (G : Geo) where
  | Lane : LanePrototype G → RoadPrototype G
  | TransferLane : TransferLanePrototype G → RoadPrototype G
  | Intersection : IntersectionPrototype G → RoadPrototype G
  | PavedArea : G.Shape → RoadPrototype G

/-- `RoadPrototype::morphable_from` (mod.rs lines 36-49); the catch-all arm
`_ => false` covers every mixed-variant pair and both `PavedArea` arms. -/
def RoadPrototype.morphable_from {G : Geo} : RoadPrototype G → RoadPrototype G → Bool
  | RoadPrototype.Lane l1, RoadPrototype.Lane l2 => l1.morphable_from l2
  | RoadPrototype.TransferLane t1, RoadPrototype.TransferLane t2 => t1.morphable_from t2
  | RoadPrototype.Intersection i1, RoadPrototype.Intersection i2 => i1.morphable_from i2
  | _, _ => false

/-- Constructor tag of a `RoadPrototype`, to speak about "variants". -/
def RoadPrototype.variantIdx {G : Geo} : RoadPrototype G → ℕ
  | RoadPrototype.Lane _ => 0
  | RoadPrototype.TransferLane _ => 1
  | RoadPrototype.Intersection _ => 2
  | RoadPrototype.PavedArea _ => 3

/-- Modelled from the spec: the `planning::Prototype` sum type (the
`planning` module is not under src/); this core only produces its `Road`
variant carrying a `RoadPrototype` (spec section 6). -/
inductive Prototype (G : Geo) where
  | Road : RoadPrototype G → Prototype G

/-- Modelled from the spec: morphability at the `Prototype` level, diffing
`Road` payloads by `RoadPrototype::morphable_from` (spec section 6). -/
def Prototype.morphable_from {G : Geo} : Prototype G → Prototype G → Bool
  | Prototype.Road r1, Prototype.Road r2 => r1.morphable_from r2

/-- Modelled from the spec: `planning::GestureIntent` (not under src/), a
sum type of which this core processes only the `Road` variant (spec
section 6); all other variants are collapsed into `Other`. -/
inductive GestureIntent where
  | Road : RoadIntent → GestureIntent
  | Other : GestureIntent

/-- Modelled from the spec: `planning::Gesture` (not under src/): an ordered
list of control points plus an intent (spec section 6). -/
structure Gesture where
  points : List P2
  intent : GestureIntent

/-- Modelled from the spec: `planning::GestureID`, a stable gesture
identity (not under src/). -/
abbrev GestureID := ℕ

/-- Modelled from the spec: `planning::Plan` (not under src/), an ordered
collection of gestures; the hash-map pair iteration of
`plan.gestures.pairs()` is modelled as iteration over an association list. -/
structure Plan where
  gestures : List (GestureID × Gesture)

/-- `gesture_intent_smooth_paths` (mod.rs lines 144-156): keep only `Road`
gestures with at least two control points that smooth successfully. -/
def gesture_intent_smooth_paths (G : Geo) (plan : Plan) :
    List (GestureID × RoadIntent × G.Path) :=
  plan.gestures.filterMap (fun pr =>
    match pr.2.intent with
    | GestureIntent.Road road_intent =>
      if 2 ≤ pr.2.points.length then
        (G.smooth_path_from pr.2.points).map (fun path => (pr.1, road_intent, path))
      else none
    | GestureIntent.Other => none)

/-- The right edge of the pavement outline (mod.rs lines 165-172): shift by
the forward half-width and reverse, falling back to the unshifted path; the
unshifted path is used directly when there are no forward lanes. -/
def pavementRightPath (G : Geo) (road_intent : RoadIntent) (path : G.Path) : G.Path :=
  if road_intent.n_lanes_forward = 0 then path
  else
    G.reverse (expectD
      (G.shift_orthogonally path
        ((road_intent.n_lanes_forward : N) * LANE_DISTANCE + 0.4 * LANE_DISTANCE))
      path)

/-- The left edge of the pavement outline (mod.rs lines 173-180): shift by
the negated backward half-width (no reversal), same fallbacks. -/
def pavementLeftPath (G : Geo) (road_intent : RoadIntent) (path : G.Path) : G.Path :=
  if road_intent.n_lanes_backward = 0 then path
  else
    expectD
      (G.shift_orthogonally path
        (-((road_intent.n_lanes_backward : N) * LANE_DISTANCE + 0.4 * LANE_DISTANCE)))
      path

/-- The pavement outline segment list (mod.rs lines 182-189): left edge
segments, a connecting line, right edge segments, a closing line.  Chaining
an `Option` in the source contributes zero or one segments (`toList`). -/
def pavementOutlineSegments (G : Geo) (road_intent : RoadIntent) (path : G.Path) :
    List G.Segment :=
  let left_path := pavementLeftPath G road_intent path
  let right_path := pavementRightPath G road_intent path
  G.segments left_path
    ++ (G.segment_line (G.endPoint left_path) (G.start right_path)).toList
    ++ G.segments right_path
    ++ (G.segment_line (G.endPoint right_path) (G.start left_path)).toList

/-- One pavement shape (mod.rs lines 191-193); the `.expect(..)` panics are
modelled by `expectD` defaults. -/
def gestureShape (G : Geo) (road_intent : RoadIntent) (path : G.Path) : G.Shape :=
  expectD
    (G.shape_new
      (expectD (G.path_new (pavementOutlineSegments G road_intent path)) G.default_path))
    G.default_shape

/-- `gesture_shapes_for_intersection` (mod.rs lines 162-195). -/
def gesture_shapes_for_intersection (G : Geo)
    (gisp : List (GestureID × RoadIntent × G.Path)) : List G.Shape :=
  gisp.map (fun t => gestureShape G t.2.1 t.2.2)

/-- Pairwise pavement intersection shapes (mod.rs lines 197-213): clip every
ordered pair of distinct pavement shapes in `Intersection` mode; clipper
errors (`none`) contribute no shapes. -/
def pairwise_intersection_shapes (G : Geo) (shapes : List G.Shape) : List G.Shape :=
  (shapes.enum.product shapes.enum).flatMap (fun pr =>
    if pr.1.1 = pr.2.1 then []
    else
      match G.clip ClipMode.Intersection pr.1.2 pr.2.2 with
      | some result => result
      | none => [])

/-- One end-cap rectangle shape at a gesture endpoint (mod.rs lines
225-252): four corner-to-corner line segments around `point`, oriented along
`direction`. -/
def endCapShape (G : Geo) (road_intent : RoadIntent) (pd : P2 × V2) : G.Shape :=
  let point := pd.1
  let direction := pd.2
  let orthogonal := direction.orthogonal
  let half_depth := direction * END_INTERSECTION_DEPTH / (2.0 : N)
  let width_backward :=
    ((road_intent.n_lanes_backward : N) * LANE_DISTANCE + 0.4 * LANE_DISTANCE) • orthogonal
  let width_forward :=
    ((road_intent.n_lanes_forward : N) * LANE_DISTANCE + 0.4 * LANE_DISTANCE) • orthogonal
  expectD
    (G.shape_new
      (expectD
        (G.path_new
          [expectD (G.segment_line (point - half_depth - width_backward)
              (point + half_depth - width_backward)) G.default_segment,
            expectD (G.segment_line (point + half_depth - width_backward)
              (point + half_depth + width_forward)) G.default_segment,
            expectD (G.segment_line (point + half_depth + width_forward)
              (point - half_depth + width_forward)) G.default_segment,
            expectD (G.segment_line (point - half_depth + width_forward)
              (point - half_depth - width_backward)) G.default_segment])
        G.default_path))
    G.default_shape

/-- End-cap shapes at the start and end of every gesture (mod.rs lines
218-254). -/
def end_cap_shapes (G : Geo) (gisp : List (GestureID × RoadIntent × G.Path)) :
    List G.Shape :=
  gisp.flatMap (fun t =>
    [(G.start t.2.2, G.start_direction t.2.2),
      (G.endPoint t.2.2, G.end_direction t.2.2)].map (endCapShape G t.2.1))

/-- Inner scan of the union pass (mod.rs lines 263-281), recursing over the
list suffix: find the first shape hit by a non-empty `Union` clip against
`a`, returning its head result and absolute index; `Ok` with zero shapes
and clipper errors (`none`) are skipped. -/
def findUnionAux (G : Geo) (a : G.Shape) : List G.Shape → ℕ → Option (G.Shape × ℕ)
  | [], _ => none
  | s :: rest, j =>
    match G.clip ClipMode.Union a s with
    | some (r :: _) => some (r, j)
    | _ => findUnionAux G a rest (j + 1)

/-- Inner scan of the union pass starting at index `i + 1` (mod.rs line
263: `for j in (i + 1)..intersection_shapes.len()`). -/
def findUnion (G : Geo) (shapes : List G.Shape) (a : G.Shape) (i : ℕ) :
    Option (G.Shape × ℕ) :=
  findUnionAux G a (shapes.drop (i + 1)) (i + 1)

/-- One iteration of the union-pass `while` loop (mod.rs lines 260-286):
`none` when `i` has reached the end; on a union hit, replace `shapes[i]` by
the head result, remove `shapes[j]`, and keep `i`; otherwise advance `i`. -/
def unionStep (G : Geo) : List G.Shape × ℕ → Option (List G.Shape × ℕ)
  | (shapes, i) =>
    if h : i < shapes.length then
      match findUnion G shapes (shapes.get ⟨i, h⟩) i with
      | some (r, j) => some ((shapes.set i r).eraseIdx j, i)
      | none => some (shapes, i + 1)
    else none

/-- Termination measure of the union pass: list length plus remaining
cursor distance; every `unionStep` strictly decreases it. -/
def unionMeasure {α : Type} : List α × ℕ → ℕ
  | (shapes, i) => shapes.length + (shapes.length - i)

/-- Fuel-driven runner of the union-pass loop; the fuel never runs out when
it starts at `unionMeasure` (see the termination theorem for claim C3). -/
def unionLoop (G : Geo) : ℕ → List G.Shape × ℕ → List G.Shape × ℕ
  | 0, s => s
  | Nat.succ fuel, s =>
    match unionStep G s with
    | some s2 => unionLoop G fuel s2
    | none => s

/-- The full union pass over the intersection-shape pool (mod.rs lines
256-286), starting with cursor `i = 0`. -/
def union_intersection_shapes (G : Geo) (shapes : List G.Shape) : List G.Shape :=
  (unionLoop G (unionMeasure (shapes, 0)) (shapes, 0)).1

/-- Seed one `IntersectionPrototype` per surviving union shape with empty
maps (mod.rs lines 288-298).  The source wraps each in
`Prototype::Road(RoadPrototype::Intersection(..))` at once and later
unwraps it with an `unreachable!` arm; the embedding keeps the plain
intersection list and wraps at assembly, which is observationally the
same. -/
def seed_intersection_prototypes (G : Geo) (shapes : List G.Shape) :
    List (IntersectionPrototype G) :=
  shapes.map (fun shape => ⟨shape, [], [], []⟩)

/-- Raw per-lane centerlines (mod.rs lines 301-324): for each gesture,
forward lanes at positive offsets and backward lanes at negative offsets;
backward lanes are reversed; lanes whose shift fails are dropped. -/
def raw_lane_paths (G : Geo) (gisp : List (GestureID × RoadIntent × G.Path)) :
    List (GestureSideID × G.Path) :=
  gisp.enum.flatMap (fun git =>
    let gesture_i := git.1
    let road_intent := git.2.2.1
    let path := git.2.2.2
    (((List.range road_intent.n_lanes_forward).map (fun lane_i =>
        CENTER_LANE_DISTANCE / 2.0 + (lane_i : N) * LANE_DISTANCE))
      ++ ((List.range road_intent.n_lanes_backward).map (fun lane_i =>
        -(CENTER_LANE_DISTANCE / 2.0 + (lane_i : N) * LANE_DISTANCE))))
      |>.filterMap (fun offset =>
        (G.shift_orthogonally path offset).map (fun p =>
          if offset < 0.0 then (GestureSideID.new_backward gesture_i, G.reverse p)
          else (GestureSideID.new_forward gesture_i, p))))

/-- Mutable lane-cutting state of one raw lane (mod.rs lines 329-331). -/
structure CutState where
  start_trim : N
  end_trim : N
  cuts : List (N × N)
deriving DecidableEq

/-- `intersection_points.iter().map(.along_a).min().unwrap()` (mod.rs lines
340-344); the unreachable empty case returns `0`. -/
def minAlongA (pts : List IntersectionPoint) : N :=
  match pts.map (fun p => p.along_a) with
  | [] => 0
  | x :: xs => xs.foldl min x

/-- `intersection_points.iter().map(.along_a).max().unwrap()` (mod.rs lines
345-349); the unreachable empty case returns `0`. -/
def maxAlongA (pts : List IntersectionPoint) : N :=
  match pts.map (fun p => p.along_a) with
  | [] => 0
  | x :: xs => xs.foldl max x

/-- Cutting one raw lane against one intersection (mod.rs lines 333-391):
with two or more boundary hits, register an incoming connector at the
minimal `along_a`, an outgoing one at the maximal `along_a` and record the
cut; with exactly one hit, trim at whichever lane endpoint the shape
contains; otherwise no interaction. -/
def processIntersection (G : Geo) (gesture_side_id : GestureSideID)
    (raw_lane_path : G.Path) (st : CutState) (inter : IntersectionPrototype G) :
    CutState × IntersectionPrototype G :=
  let intersection_points := G.intersect raw_lane_path (G.outline inter.shape)
  if 2 ≤ intersection_points.length then
    let entry_distance := minAlongA intersection_points
    let exit_distance := maxAlongA intersection_points
    (⟨st.start_trim, st.end_trim, st.cuts ++ [(entry_distance, exit_distance)]⟩,
      ⟨inter.shape,
        pushAt inter.incoming gesture_side_id
          (IntersectionConnector.new (G.along raw_lane_path entry_distance)
            (G.direction_along raw_lane_path entry_distance)),
        pushAt inter.outgoing gesture_side_id
          (IntersectionConnector.new (G.along raw_lane_path exit_distance)
            (G.direction_along raw_lane_path exit_distance)),
        inter.connecting_lanes⟩)
  else
    match intersection_points with
    | [single] =>
      if G.contains inter.shape (G.start raw_lane_path) then
        let exit_distance := single.along_a
        (⟨max st.start_trim exit_distance, st.end_trim, st.cuts⟩,
          ⟨inter.shape, inter.incoming,
            pushAt inter.outgoing gesture_side_id
              (IntersectionConnector.new (G.along raw_lane_path exit_distance)
                (G.direction_along raw_lane_path exit_distance)),
            inter.connecting_lanes⟩)
      else if G.contains inter.shape (G.endPoint raw_lane_path) then
        let entry_distance := single.along_a
        (⟨st.start_trim, min st.end_trim entry_distance, st.cuts⟩,
          ⟨inter.shape,
            pushAt inter.incoming gesture_side_id
              (IntersectionConnector.new (G.along raw_lane_path entry_distance)
                (G.direction_along raw_lane_path entry_distance)),
            inter.outgoing, inter.connecting_lanes⟩)
      else (st, inter)
    | _ => (st, inter)

/-- The `for intersection in &mut intersection_prototypes` loop of one raw
lane (mod.rs lines 333-391), threading the cut state and returning the
updated intersections in order. -/
def cutFold (G : Geo) (gesture_side_id : GestureSideID) (raw_lane_path : G.Path) :
    List (IntersectionPrototype G) → CutState →
      CutState × List (IntersectionPrototype G)
  | [], st => (st, [])
  | inter :: rest, st =>
    let p := processIntersection G gesture_side_id raw_lane_path st inter
    let q := cutFold G gesture_side_id raw_lane_path rest p.1
    (q.1, p.2 :: q.2)

/-- `cuts.sort_by(..)` on the entry distance (mod.rs line 393): Rust's
stable sort, modelled by the equally stable insertion sort. -/
def sortCuts (cuts : List (N × N)) : List (N × N) :=
  List.insertionSort (fun a b => a.1 ≤ b.1) cuts

/-- `cuts.windows(2)` (mod.rs line 398): adjacent pairs of a list. -/
def windows2 {α : Type} : List α → List (α × α)
  | a :: b :: rest => (a, b) :: windows2 (b :: rest)
  | _ => []

/-- Cutting one raw lane against all intersections and emitting its
in-segment subsections (mod.rs lines 328-403): fold the per-intersection
step, sort the cuts by entry distance, add the two sentinels, and keep the
non-empty subsections between adjacent cuts. -/
def cutLanePath (G : Geo) (gesture_side_id : GestureSideID) (raw_lane_path : G.Path)
    (inters : List (IntersectionPrototype G)) :
    List (IntersectionPrototype G) × List G.Path :=
  let r := cutFold G gesture_side_id raw_lane_path inters
    ⟨0.0, G.length raw_lane_path, []⟩
  let cuts := ((-1.0 : N), r.1.start_trim) ::
    sortCuts r.1.cuts ++ [(r.1.end_trim, G.length raw_lane_path + 1.0)]
  (r.2, (windows2 cuts).filterMap (fun two_cuts =>
    G.subsection raw_lane_path two_cuts.1.2 two_cuts.2.1))

/-- `intersected_lane_paths` (mod.rs lines 326-405): cut every raw lane in
order, threading the intersection prototypes through. -/
def cutAllLanes (G : Geo) :
    List (GestureSideID × G.Path) → List (IntersectionPrototype G) →
      List (IntersectionPrototype G) × List G.Path
  | [], inters => (inters, [])
  | (sid, p) :: rest, inters =>
    let r := cutLanePath G sid p inters
    let q := cutAllLanes G rest r.1
    (q.1, r.2 ++ q.2)

/-- One window of two consecutive band-outline intersections of the
transfer-lane generator (mod.rs lines 455-487): accept when both mapped
left distances increase and the two midpoints are within tolerance, then
emit the right-path subsection. -/
def transferWindow (G : Geo) (right_path left_path : G.Path)
    (right_band left_band : Band G)
    (pair : IntersectionPoint × IntersectionPoint) : Option G.Path :=
  let first_along_right := bandDistToPath G right_band pair.1.along_a
  let second_along_right := bandDistToPath G right_band pair.2.along_a
  let first_along_left := bandDistToPath G left_band pair.1.along_b
  let second_along_left := bandDistToPath G left_band pair.2.along_b
  if first_along_left < second_along_left then
    if G.is_roughly_within_p2
        (G.along right_path ((first_along_right + second_along_right) / 2.0))
        (G.along left_path ((first_along_left + second_along_left) / 2.0))
        TRANSFER_LANE_DISTANCE_TOLERANCE then
      G.subsection right_path first_along_right second_along_right
    else none
  else none

/-- `itertools::coalesce` inner loop: merge the accumulator into the next
element when `f` succeeds, else emit the accumulator. -/
def coalesceGo {α : Type} (f : α → α → Option α) (acc : α) : List α → List α
  | [] => [acc]
  | y :: ys =>
    match f acc y with
    | some m => coalesceGo f m ys
    | none => acc :: coalesceGo f y ys

/-- `itertools::coalesce` (mod.rs lines 488-492). -/
def coalesce {α : Type} (f : α → α → Option α) : List α → List α
  | [] => []
  | x :: xs => coalesceGo f x xs

/-- Transfer-lane fragments of one (right, left) pair of offset lanes
(mod.rs lines 441-494): intersect the two band outlines, sort by the mapped
right-centerline distance, evaluate every window of two consecutive
intersections, and coalesce adjacent fragments that concatenate. -/
def transferPair (G : Geo) (rp : G.Path × Band G) (lp : G.Path × Band G) :
    List G.Path :=
  let inters := G.intersect (bandOutline G rp.2) (bandOutline G lp.2)
  if inters.length < 2 then []
  else
    let sorted := List.insertionSort
      (fun a b => bandDistToPath G rp.2 a.along_a ≤ bandDistToPath G rp.2 b.along_a)
      inters
    coalesce (fun prev next => G.concat prev next)
      ((windows2 sorted).filterMap (transferWindow G rp.1 lp.1 rp.2 lp.2))

/-- `transfer_lane_paths` (mod.rs lines 408-496): offset every in-segment
lane by half a lane distance to both sides, wrap each as a band of
half-width `TRANSFER_LANE_DISTANCE_TOLERANCE`, and scan the full cartesian
product of right and left offsets. -/
def transfer_lane_paths (G : Geo) (intersected_lane_paths : List G.Path) :
    List G.Path :=
  let right_lane_paths_and_bands := intersected_lane_paths.filterMap (fun path =>
    (G.shift_orthogonally path (0.5 * LANE_DISTANCE)).map (fun right_path =>
      (right_path, Band.mk right_path TRANSFER_LANE_DISTANCE_TOLERANCE)))
  let left_lane_paths_and_bands := intersected_lane_paths.filterMap (fun path =>
    (G.shift_orthogonally path (-(0.5 * LANE_DISTANCE))).map (fun left_path =>
      (left_path, Band.mk left_path TRANSFER_LANE_DISTANCE_TOLERANCE)))
  (right_lane_paths_and_bands.product left_lane_paths_and_bands).flatMap
    (fun pr => transferPair G pr.1 pr.2)

/-- The compiler core after gesture smoothing (mod.rs lines 162-517),
parameterized by `create_connecting_lanes` (the
`intersection_connections` module is not under src/; modelled from the
spec as an arbitrary per-intersection transform, spec section 4.6). -/
def calc_core (G : Geo) (create_connecting_lanes : IntersectionPrototype G → IntersectionPrototype G)
    (gisp : List (GestureID × RoadIntent × G.Path)) : List (Prototype G) :=
  let gesture_shapes := gesture_shapes_for_intersection G gisp
  let unioned := union_intersection_shapes G
    (pairwise_intersection_shapes G gesture_shapes ++ end_cap_shapes G gisp)
  let cut := cutAllLanes G (raw_lane_paths G gisp) (seed_intersection_prototypes G unioned)
  let transfers := transfer_lane_paths G cut.2
  ((cut.1.map create_connecting_lanes).map (fun i =>
      Prototype.Road (RoadPrototype.Intersection i)))
    ++ (cut.2.map (fun path => Prototype.Road (RoadPrototype.Lane ⟨path, []⟩)))
    ++ (transfers.map (fun path => Prototype.Road (RoadPrototype.TransferLane ⟨path⟩)))
    ++ (gesture_shapes.map (fun shape => Prototype.Road (RoadPrototype.PavedArea shape)))

/-- `calculate_prototypes` (mod.rs lines 159-518).  The `_current_result :
PlanResult` argument is never read by the source; it is kept polymorphic
here. -/
def calculate_prototypes (G : Geo)
    (create_connecting_lanes : IntersectionPrototype G → IntersectionPrototype G)
    {PlanResult : Type} (plan : Plan) (_current_result : PlanResult) :
    List (Prototype G) :=
  calc_core G create_connecting_lanes (gesture_intent_smooth_paths G plan)

/-- A trivial concrete geometry instance (all paths, shapes and segments
collapsed to `Unit`; curve intersection always empty; every orthogonal
shift fails), used to evaluate the development on concrete inputs. -/
@[reducible] def TrivGeo : Geo where
  Path := Unit
  Shape := Unit
  Segment := Unit
  length := fun _ => 0
  along := fun _ _ => ⟨0, 0⟩
  direction_along := fun _ _ => ⟨1, 0⟩
  start := fun _ => ⟨0, 0⟩
  endPoint := fun _ => ⟨0, 0⟩
  start_direction := fun _ => ⟨1, 0⟩
  end_direction := fun _ => ⟨1, 0⟩
  reverse := fun p => p
  subsection := fun _ _ _ => some ()
  shift_orthogonally := fun _ _ => none
  segments := fun _ => []
  concat := fun _ _ => none
  path_new := fun _ => some ()
  shape_new := fun _ => some ()
  outline := fun _ => ()
  contains := fun _ _ => false
  segment_line := fun _ _ => some ()
  intersect := fun _ _ => []
  clip := fun _ _ _ => some []
  band_outline := fun _ _ => ()
  outline_distance_to_path_distance := fun _ _ d => d
  smooth_path_from := fun _ => some ()
  is_roughly_within_p2 := fun _ _ _ => true
  is_roughly_within_path := fun _ _ _ => true
  default_path := ()
  default_shape := ()
  default_segment := ()

/-- A second concrete geometry instance for witnesses that need non-empty
curve intersections, successful shifts and non-empty union clips. -/
@[reducible] def WitGeo : Geo where
  Path := Unit
  Shape := Unit
  Segment := Unit
  length := fun _ => 10
  along := fun _ _ => ⟨0, 0⟩
  direction_along := fun _ _ => ⟨1, 0⟩
  start := fun _ => ⟨0, 0⟩
  endPoint := fun _ => ⟨0, 0⟩
  start_direction := fun _ => ⟨1, 0⟩
  end_direction := fun _ => ⟨1, 0⟩
  reverse := fun p => p
  subsection := fun _ _ _ => some ()
  shift_orthogonally := fun _ _ => some ()
  segments := fun _ => []
  concat := fun _ _ => none
  path_new := fun _ => some ()
  shape_new := fun _ => some ()
  outline := fun _ => ()
  contains := fun _ _ => false
  segment_line := fun _ _ => some ()
  intersect := fun _ _ => [⟨1, 0, ⟨0, 0⟩⟩, ⟨5, 1, ⟨0, 0⟩⟩]
  clip := fun _ _ _ => some [()]
  band_outline := fun _ _ => ()
  outline_distance_to_path_distance := fun _ _ d => d
  smooth_path_from := fun _ => some ()
  is_roughly_within_p2 := fun _ _ _ => true
  is_roughly_within_path := fun _ _ _ => true
  default_path := ()
  default_shape := ()
  default_segment := ()

/-- Whether a gesture participates in the compiler core: a `Road` intent
with at least two control points (spec sections 3 and 6). -/
def participates (g : Gesture) : Bool :=
  match g.intent with
  | GestureIntent.Road _ => decide (2 ≤ g.points.length)
  | GestureIntent.Other => false

theorem gisp_filter (G : Geo) (gs : List (GestureID × Gesture)) :
    gesture_intent_smooth_paths G (Plan.mk (gs.filter (fun pr => participates pr.2))) =
      gesture_intent_smooth_paths G (Plan.mk gs) := by
  induction gs with
  | nil => rfl
  | cons hd tl ih =>
    simp only [gesture_intent_smooth_paths] at ih ⊢
    rw [List.filter_cons]
    by_cases hp : participates hd.2 = true
    · rw [if_pos hp, List.filterMap_cons, List.filterMap_cons, ih]
    · rw [if_neg hp, List.filterMap_cons, ih]
      have hnone :
          (match hd.2.intent with
            | GestureIntent.Road road_intent =>
              if 2 ≤ hd.2.points.length then
                (G.smooth_path_from hd.2.points).map
                  (fun path => (hd.1, road_intent, path))
              else none
            | GestureIntent.Other => none) = none := by
        unfold participates at hp
        cases hi : hd.2.intent with
        | Road ri =>
          rw [hi] at hp
          simp only [decide_eq_true_eq] at hp
          simp [hp]
        | Other => simp
      rw [hnone]

/-- C9: gestures whose intent is not `Road`, or whose control-point list has
fewer than two points, are excluded before any stage runs: the output of
`calculate_prototypes` on a plan equals the output on the plan with all
such gestures removed. -/
theorem c9_nonroad_gestures_ignored (G : Geo)
    (create_connecting_lanes : IntersectionPrototype G → IntersectionPrototype G)
    {PR : Type} (r : PR) (gestures : List (GestureID × Gesture)) :
    calculate_prototypes G create_connecting_lanes
        (Plan.mk (gestures.filter (fun pr => participates pr.2))) r =
      calculate_prototypes G create_connecting_lanes (Plan.mk gestures) r := by
  unfold calculate_prototypes
  rw [gisp_filter]

/-- C7 amended: `calculate_prototypes` is a pure deterministic function of
the plan alone; the `PlanResult` argument (even of a different type) has no
influence, so two calls with the same plan yield literally identical output
vectors. -/
theorem c7_deterministic_result_unused (G : Geo)
    (create_connecting_lanes : IntersectionPrototype G → IntersectionPrototype G)
    {PR1 PR2 : Type} (plan : Plan) (r1 : PR1) (r2 : PR2) :
    calculate_prototypes G create_connecting_lanes plan r1 =
      calculate_prototypes G create_connecting_lanes plan r2 := rfl

/-- A one-road-gesture plan used as a concrete counterexample input. -/
def examplePlan : Plan :=
  Plan.mk [(0, Gesture.mk [⟨0, 0⟩, ⟨100, 0⟩] (GestureIntent.Road (RoadIntent.mk 1 0)))]

/-- C7 counterexample: on a concrete plan the two (identical) outputs are
NOT elementwise equal under `morphable_from`, because the output contains a
`PavedArea`, which is never morphable from anything. -/
theorem c7_counterexample :
    (calculate_prototypes TrivGeo id examplePlan PUnit.unit =
        calculate_prototypes TrivGeo id examplePlan PUnit.unit) ∧
    ¬ ((calculate_prototypes TrivGeo id examplePlan PUnit.unit).length =
          (calculate_prototypes TrivGeo id examplePlan PUnit.unit).length ∧
        ∀ pr ∈ (calculate_prototypes TrivGeo id examplePlan PUnit.unit).zip
            (calculate_prototypes TrivGeo id examplePlan PUnit.unit),
          Prototype.morphable_from pr.1 pr.2 = true) := by
  exact ⟨rfl, by decide⟩

/-- C10: `RoadPrototype::morphable_from` is `false` across different
variants, and `PavedArea` is never morphable in either direction (not even
from another `PavedArea`). -/
theorem c10_morphable_from_variants (G : Geo) (a b : RoadPrototype G) (s : G.Shape) :
    (a.variantIdx ≠ b.variantIdx → a.morphable_from b = false) ∧
    (RoadPrototype.morphable_from (RoadPrototype.PavedArea s) b = false) ∧
    (RoadPrototype.morphable_from a (RoadPrototype.PavedArea s) = false) := by
  refine ⟨?_, ?_, ?_⟩
  · intro h
    cases a <;> cases b <;> first | rfl | exact absurd rfl h
  · cases b <;> rfl
  · cases a <;> rfl

/-- C10 witness: concrete evaluations at the trivial geometry. -/
theorem c10_witness :
    (RoadPrototype.morphable_from
        (RoadPrototype.Lane (LanePrototype.mk () [] : LanePrototype TrivGeo))
        (RoadPrototype.PavedArea () : RoadPrototype TrivGeo) = false) ∧
    (RoadPrototype.morphable_from
        (RoadPrototype.PavedArea () : RoadPrototype TrivGeo)
        (RoadPrototype.PavedArea () : RoadPrototype TrivGeo) = false) :=
  ⟨(c10_morphable_from_variants TrivGeo
      (RoadPrototype.Lane (LanePrototype.mk () []))
      (RoadPrototype.PavedArea () : RoadPrototype TrivGeo) ()).1 (by decide),
    (c10_morphable_from_variants TrivGeo
      (RoadPrototype.PavedArea () : RoadPrototype TrivGeo)
      (RoadPrototype.PavedArea () : RoadPrototype TrivGeo) ()).2.2⟩

/-- Spec section 4.3 (claim C4): the end-cap rectangle's back-left corner,
on the backward lateral side at the rear end of the tangent span. -/
def specBackLeft (ri : RoadIntent) (point : P2) (direction : V2) : P2 :=
  point - ((15 : N) / 2) • direction -
    (((ri.n_lanes_backward : N) * LANE_DISTANCE + 0.4 * LANE_DISTANCE) • direction.orthogonal)

/-- Spec section 4.3 (claim C4): the back-right corner. -/
def specBackRight (ri : RoadIntent) (point : P2) (direction : V2) : P2 :=
  point + ((15 : N) / 2) • direction -
    (((ri.n_lanes_backward : N) * LANE_DISTANCE + 0.4 * LANE_DISTANCE) • direction.orthogonal)

/-- Spec section 4.3 (claim C4): the front-right corner. -/
def specFrontRight (ri : RoadIntent) (point : P2) (direction : V2) : P2 :=
  point + ((15 : N) / 2) • direction +
    (((ri.n_lanes_forward : N) * LANE_DISTANCE + 0.4 * LANE_DISTANCE) • direction.orthogonal)

/-- Spec section 4.3 (claim C4): the front-left corner. -/
def specFrontLeft (ri : RoadIntent) (point : P2) (direction : V2) : P2 :=
  point - ((15 : N) / 2) • direction +
    (((ri.n_lanes_forward : N) * LANE_DISTANCE + 0.4 * LANE_DISTANCE) • direction.orthogonal)

/-- Spec-side end-cap shape, following the spec's words: the rectangle with
corners enumerated in the winding back-left → back-right → front-right →
front-left. -/
def endCapShapeSpec (G : Geo) (ri : RoadIntent) (point : P2) (direction : V2) : G.Shape :=
  expectD
    (G.shape_new
      (expectD
        (G.path_new
          [expectD (G.segment_line (specBackLeft ri point direction)
              (specBackRight ri point direction)) G.default_segment,
            expectD (G.segment_line (specBackRight ri point direction)
              (specFrontRight ri point direction)) G.default_segment,
            expectD (G.segment_line (specFrontRight ri point direction)
              (specFrontLeft ri point direction)) G.default_segment,
            expectD (G.segment_line (specFrontLeft ri point direction)
              (specBackLeft ri point direction)) G.default_segment])
        G.default_path))
    G.default_shape

theorem half_depth_eq (direction : V2) :
    direction * END_INTERSECTION_DEPTH / (2.0 : N) = ((15 : N) / 2) • direction := by
  simp only [END_INTERSECTION_DEPTH, V2.mulN_def, V2.divN_def, V2.smul_def, V2.mk.injEq]
  constructor <;> ring

/-- C4: for every gesture endpoint, the end-cap builder produces exactly
the spec's rectangle: its four corner-to-corner segments are enumerated in
the winding back-left → back-right → front-right → front-left, the tangent
span has length `END_INTERSECTION_DEPTH = 15`, and the lateral span runs
from `n_bwd·LANE_DISTANCE + 0.4·LANE_DISTANCE` on the backward side to
`n_fwd·LANE_DISTANCE + 0.4·LANE_DISTANCE` on the forward side. -/
theorem c4_end_cap_rectangle (G : Geo) (ri : RoadIntent) (point : P2) (direction : V2) :
    endCapShape G ri (point, direction) = endCapShapeSpec G ri point direction ∧
    specBackRight ri point direction - specBackLeft ri point direction =
      (15 : N) • direction ∧
    specFrontRight ri point direction - specFrontLeft ri point direction =
      (15 : N) • direction ∧
    specFrontLeft ri point direction - specBackLeft ri point direction =
      (((ri.n_lanes_backward : N) * LANE_DISTANCE + 0.4 * LANE_DISTANCE) +
          ((ri.n_lanes_forward : N) * LANE_DISTANCE + 0.4 * LANE_DISTANCE)) •
        direction.orthogonal := by
  refine ⟨?_, ?_, ?_, ?_⟩
  · simp only [endCapShape, endCapShapeSpec, specBackLeft, specBackRight,
      specFrontRight, specFrontLeft, half_depth_eq]
  · simp only [specBackLeft, specBackRight, P2.addV_def, P2.subV_def, P2.subP_def,
      V2.smul_def, V2.mk.injEq]
    constructor <;> ring
  · simp only [specFrontRight, specFrontLeft, P2.addV_def, P2.subV_def, P2.subP_def,
      V2.smul_def, V2.mk.injEq]
    constructor <;> ring
  · simp only [specFrontLeft, specBackLeft, P2.addV_def, P2.subV_def, P2.subP_def,
      V2.smul_def, V2.add_def, V2.mk.injEq]
    constructor <;> ring

theorem getAt_pushAt (m : ConnectorMap) (k : GestureSideID) (v : IntersectionConnector) :
    getAt (pushAt m k v) k = getAt m k ++ [v] := by
  induction m with
  | nil => simp [pushAt, getAt]
  | cons hd tl ih =>
    obtain ⟨k2, vs⟩ := hd
    by_cases h : k2 = k
    · simp [pushAt, getAt, h]
    · simp [pushAt, getAt, h, ih]

theorem foldl_min_le_init (x : N) (xs : List N) : xs.foldl min x ≤ x := by
  induction xs generalizing x with
  | nil => simp
  | cons y ys ih => exact le_trans (ih (min x y)) (min_le_left x y)

theorem foldl_min_le (x : N) (xs : List N) : ∀ q ∈ xs, xs.foldl min x ≤ q := by
  induction xs generalizing x with
  | nil => simp
  | cons y ys ih =>
    intro q hq
    rcases List.mem_cons.mp hq with hh | hh
    · subst hh
      exact le_trans (foldl_min_le_init (min x q) ys) (min_le_right x q)
    · exact ih (min x y) q hh

theorem foldl_min_mem (x : N) (xs : List N) : xs.foldl min x ∈ x :: xs := by
  induction xs generalizing x with
  | nil => simp [List.foldl]
  | cons y ys ih =>
    show ys.foldl min (min x y) ∈ x :: y :: ys
    rcases List.mem_cons.mp (ih (min x y)) with hh | hh
    · rcases min_choice x y with hc | hc
      · rw [hh, hc]
        exact List.mem_cons_self _ _
      · rw [hh, hc]
        exact List.mem_cons_of_mem _ (List.mem_cons_self _ _)
    · exact List.mem_cons_of_mem _ (List.mem_cons_of_mem _ hh)

theorem foldl_max_ge_init (x : N) (xs : List N) : x ≤ xs.foldl max x := by
  induction xs generalizing x with
  | nil => simp
  | cons y ys ih => exact le_trans (le_max_left x y) (ih (max x y))

theorem foldl_max_ge (x : N) (xs : List N) : ∀ q ∈ xs, q ≤ xs.foldl max x := by
  induction xs generalizing x with
  | nil => simp
  | cons y ys ih =>
    intro q hq
    rcases List.mem_cons.mp hq with hh | hh
    · subst hh
      exact le_trans (le_max_right x q) (foldl_max_ge_init (max x q) ys)
    · exact ih (max x y) q hh

theorem foldl_max_mem (x : N) (xs : List N) : xs.foldl max x ∈ x :: xs := by
  induction xs generalizing x with
  | nil => simp [List.foldl]
  | cons y ys ih =>
    show ys.foldl max (max x y) ∈ x :: y :: ys
    rcases List.mem_cons.mp (ih (max x y)) with hh | hh
    · rcases max_choice x y with hc | hc
      · rw [hh, hc]
        exact List.mem_cons_self _ _
      · rw [hh, hc]
        exact List.mem_cons_of_mem _ (List.mem_cons_self _ _)
    · exact List.mem_cons_of_mem _ (List.mem_cons_of_mem _ hh)

theorem minAlongA_spec (pts : List IntersectionPoint) (h : pts ≠ []) :
    minAlongA pts ∈ pts.map (fun p => p.along_a) ∧
      ∀ q ∈ pts.map (fun p => p.along_a), minAlongA pts ≤ q := by
  cases hm : pts.map (fun p => p.along_a) with
  | nil => exact absurd (List.map_eq_nil_iff.mp hm) h
  | cons x xs =>
    unfold minAlongA
    rw [hm]
    refine ⟨foldl_min_mem x xs, ?_⟩
    intro q hq
    rcases List.mem_cons.mp hq with hh | hh
    · subst hh
      exact foldl_min_le_init _ _
    · exact foldl_min_le x xs q hh

theorem maxAlongA_spec (pts : List IntersectionPoint) (h : pts ≠ []) :
    maxAlongA pts ∈ pts.map (fun p => p.along_a) ∧
      ∀ q ∈ pts.map (fun p => p.along_a), q ≤ maxAlongA pts := by
  cases hm : pts.map (fun p => p.along_a) with
  | nil => exact absurd (List.map_eq_nil_iff.mp hm) h
  | cons x xs =>
    unfold maxAlongA
    rw [hm]
    refine ⟨foldl_max_mem x xs, ?_⟩
    intro q hq
    rcases List.mem_cons.mp hq with hh | hh
    · subst hh
      exact foldl_max_ge_init _ _
    · exact foldl_max_ge x xs q hh

/-- C1: when an intersection outline meets a raw lane path in at least two
points, the cut step appends exactly one incoming connector positioned at
the minimal `along_a` (with the path tangent there) to
`incoming[gesture_side_id]`, exactly one outgoing connector at the maximal
`along_a` to `outgoing[gesture_side_id]`, records `(entry, exit)` as one
new cut, and leaves the trims, the shape and the cuts so far unchanged. -/
theorem c1_lane_cut_two_points (G : Geo) (gesture_side_id : GestureSideID)
    (raw_lane_path : G.Path) (st : CutState) (inter : IntersectionPrototype G)
    (pts : List IntersectionPoint)
    (hpts : pts = G.intersect raw_lane_path (G.outline inter.shape))
    (h2 : 2 ≤ pts.length)
    (entry exit : N) (hentry : entry = minAlongA pts) (hexit : exit = maxAlongA pts) :
    (entry ∈ pts.map (fun p => p.along_a) ∧
      ∀ q ∈ pts.map (fun p => p.along_a), entry ≤ q) ∧
    (exit ∈ pts.map (fun p => p.along_a) ∧
      ∀ q ∈ pts.map (fun p => p.along_a), q ≤ exit) ∧
    getAt (processIntersection G gesture_side_id raw_lane_path st inter).2.incoming
        gesture_side_id =
      getAt inter.incoming gesture_side_id ++
        [IntersectionConnector.new (G.along raw_lane_path entry)
          (G.direction_along raw_lane_path entry)] ∧
    getAt (processIntersection G gesture_side_id raw_lane_path st inter).2.outgoing
        gesture_side_id =
      getAt inter.outgoing gesture_side_id ++
        [IntersectionConnector.new (G.along raw_lane_path exit)
          (G.direction_along raw_lane_path exit)] ∧
    (processIntersection G gesture_side_id raw_lane_path st inter).1.cuts =
      st.cuts ++ [(entry, exit)] ∧
    (processIntersection G gesture_side_id raw_lane_path st inter).1.start_trim =
      st.start_trim ∧
    (processIntersection G gesture_side_id raw_lane_path st inter).1.end_trim =
      st.end_trim ∧
    (processIntersection G gesture_side_id raw_lane_path st inter).2.shape =
      inter.shape := by
  have hne : pts ≠ [] := by
    intro he
    rw [he] at h2
    simp at h2
  have hproc : processIntersection G gesture_side_id raw_lane_path st inter =
      (⟨st.start_trim, st.end_trim, st.cuts ++ [(entry, exit)]⟩,
        ⟨inter.shape,
          pushAt inter.incoming gesture_side_id
            (IntersectionConnector.new (G.along raw_lane_path entry)
              (G.direction_along raw_lane_path entry)),
          pushAt inter.outgoing gesture_side_id
            (IntersectionConnector.new (G.along raw_lane_path exit)
              (G.direction_along raw_lane_path exit)),
          inter.connecting_lanes⟩) := by
    rw [hentry, hexit, hpts]
    simp only [processIntersection]
    rw [if_pos (hpts ▸ h2)]
  refine ⟨hentry ▸ minAlongA_spec pts hne, hexit ▸ maxAlongA_spec pts hne,
    ?_, ?_, ?_, ?_, ?_, ?_⟩ <;>
    rw [hproc] <;> simp [getAt_pushAt]

/-- C1 witness: a concrete two-point intersection at the witness
geometry. -/
theorem c1_witness :
    getAt (processIntersection WitGeo (GestureSideID.new_forward 0) ()
        (CutState.mk 0 10 []) (IntersectionPrototype.mk () [] [] [])).2.incoming
        (GestureSideID.new_forward 0) =
      [IntersectionConnector.new ⟨0, 0⟩ ⟨1, 0⟩] ∧
    (processIntersection WitGeo (GestureSideID.new_forward 0) ()
        (CutState.mk 0 10 []) (IntersectionPrototype.mk () [] [] [])).1.cuts =
      [((1 : N), (5 : N))] := by
  have H := c1_lane_cut_two_points WitGeo (GestureSideID.new_forward 0) ()
    (CutState.mk 0 10 []) (IntersectionPrototype.mk () [] [] [])
    [⟨1, 0, ⟨0, 0⟩⟩, ⟨5, 1, ⟨0, 0⟩⟩] rfl (by decide) 1 5 (by decide) (by decide)
  exact ⟨H.2.2.1, H.2.2.2.2.1⟩

theorem findUnionAux_bounds (G : Geo) (a : G.Shape) :
    ∀ (l : List G.Shape) (j j2 : ℕ) (r : G.Shape),
      findUnionAux G a l j = some (r, j2) → j ≤ j2 ∧ j2 < j + l.length := by
  intro l
  induction l with
  | nil =>
    intro j j2 r h
    simp [findUnionAux] at h
  | cons s tail ih =>
    intro j j2 r h
    simp only [findUnionAux] at h
    split at h
    · rw [Option.some.injEq, Prod.mk.injEq] at h
      obtain ⟨-, h2⟩ := h
      subst h2
      simp [List.length_cons]
    · have := ih (j + 1) j2 r h
      simp only [List.length_cons]
      omega

theorem findUnionAux_first (G : Geo) (a : G.Shape) :
    ∀ (l : List G.Shape) (j t : ℕ) (ht : t < l.length) (r : G.Shape)
      (rest : List G.Shape),
      (∀ k (hk : k < t), ∀ x xs,
        G.clip ClipMode.Union a (l.get ⟨k, lt_trans hk ht⟩) ≠ some (x :: xs)) →
      G.clip ClipMode.Union a (l.get ⟨t, ht⟩) = some (r :: rest) →
      findUnionAux G a l j = some (r, j + t) := by
  intro l
  induction l with
  | nil =>
    intro j t ht
    simp at ht
  | cons s tail ih =>
    intro j t ht r rest hfirst hhit
    cases t with
    | zero =>
      have hs : G.clip ClipMode.Union a s = some (r :: rest) := hhit
      simp [findUnionAux, hs]
    | succ t2 =>
      have hs : ∀ x xs, G.clip ClipMode.Union a s ≠ some (x :: xs) := by
        intro x xs
        exact hfirst 0 (Nat.succ_pos t2) x xs
      have ht2 : t2 < tail.length := Nat.lt_of_succ_lt_succ ht
      have hrec : findUnionAux G a tail (j + 1) = some (r, (j + 1) + t2) := by
        refine ih (j + 1) t2 ht2 r rest ?_ hhit
        intro k hk x xs
        exact hfirst (k + 1) (Nat.succ_lt_succ hk) x xs
      have harith : j + 1 + t2 = j + (t2 + 1) := by omega
      simp only [findUnionAux]
      cases hc : G.clip ClipMode.Union a s with
      | none =>
        rw [hrec, harith]
      | some res =>
        cases res with
        | nil =>
          rw [hrec, harith]
        | cons x xs => exact absurd hc (hs x xs)

theorem unionStep_decrease (G : Geo) (s s2 : List G.Shape × ℕ)
    (h : unionStep G s = some s2) : unionMeasure s2 < unionMeasure s := by
  obtain ⟨shapes, i⟩ := s
  simp only [unionStep] at h
  split at h
  · rename_i hi
    cases hfu : findUnion G shapes (shapes.get ⟨i, hi⟩) i with
    | some rj =>
      obtain ⟨r, j⟩ := rj
      rw [hfu] at h
      rw [Option.some.injEq] at h
      subst h
      have hb := findUnionAux_bounds G (shapes.get ⟨i, hi⟩)
        (shapes.drop (i + 1)) (i + 1) j r hfu
      have hjlen : j < shapes.length := by
        have := List.length_drop (i + 1) shapes
        omega
      have hlen : ((shapes.set i r).eraseIdx j).length = shapes.length - 1 := by
        rw [List.length_eraseIdx]
        simp [hjlen]
      simp only [unionMeasure, hlen]
      omega
    | none =>
      rw [hfu] at h
      rw [Option.some.injEq] at h
      subst h
      simp only [unionMeasure]
      omega
  · exact absurd h (by simp)

theorem unionLoop_done (G : Geo) :
    ∀ (n : ℕ) (s : List G.Shape × ℕ), unionMeasure s ≤ n →
      unionStep G (unionLoop G n s) = none := by
  intro n
  induction n with
  | zero =>
    intro s hs
    obtain ⟨shapes, i⟩ := s
    simp only [unionMeasure] at hs
    have hlen : shapes.length = 0 := by omega
    simp [unionLoop, unionStep, hlen]
  | succ n ih =>
    intro s hs
    cases hstep : unionStep G s with
    | none => simp [unionLoop, hstep]
    | some s2 =>
      have hdec := unionStep_decrease G s s2 hstep
      simp only [unionLoop, hstep]
      exact ih s2 (by omega)

/-- C3: the union pass terminates on every finite shape list: every
iteration of the `while` loop (replace-and-remove, or cursor advance)
strictly decreases the measure `length + (length − i)`, and running the
loop for `unionMeasure` many steps always reaches the terminal state where
no further step applies. -/
theorem c3_union_pass_terminates (G : Geo) (s s2 : List G.Shape × ℕ) :
    (unionStep G s = some s2 → unionMeasure s2 < unionMeasure s) ∧
    unionStep G (unionLoop G (unionMeasure s) s) = none :=
  ⟨fun h => unionStep_decrease G s s2 h,
    unionLoop_done G (unionMeasure s) s le_rfl⟩

/-- C3 witness: a concrete two-shape pool that merges once and then
terminates. -/
theorem c3_witness :
    unionMeasure (([()], 0) : List WitGeo.Shape × ℕ) <
      unionMeasure (([(), ()], 0) : List WitGeo.Shape × ℕ) ∧
    unionStep WitGeo
      (unionLoop WitGeo (unionMeasure (([(), ()], 0) : List WitGeo.Shape × ℕ))
        ([(), ()], 0)) = none :=
  ⟨(c3_union_pass_terminates WitGeo ([(), ()], 0) ([()], 0)).1 rfl,
    (c3_union_pass_terminates WitGeo ([(), ()], 0) ([()], 0)).2⟩

/-- C6: one union-pass step at cursor `i`, when the first non-empty union
hit against `shapes[i]` happens at index `j`, replaces `shapes[i]` by the
head of the clip result (discarding any further returned shapes), removes
`shapes[j]`, and does not advance the cursor. -/
theorem c6_union_first_result (G : Geo) (shapes : List G.Shape) (i j : ℕ)
    (hij : i < j) (hj : j < shapes.length) (r : G.Shape) (rest : List G.Shape)
    (hfirst : ∀ j2 (hj2 : j2 < shapes.length), i < j2 → j2 < j → ∀ x xs,
      G.clip ClipMode.Union (shapes.get ⟨i, lt_trans hij hj⟩)
        (shapes.get ⟨j2, hj2⟩) ≠ some (x :: xs))
    (hhit : G.clip ClipMode.Union (shapes.get ⟨i, lt_trans hij hj⟩)
      (shapes.get ⟨j, hj⟩) = some (r :: rest)) :
    unionStep G (shapes, i) = some ((shapes.set i r).eraseIdx j, i) := by
  have hi : i < shapes.length := lt_trans hij hj
  have hdlen : (shapes.drop (i + 1)).length = shapes.length - (i + 1) :=
    List.length_drop (i + 1) shapes
  have ht : j - (i + 1) < (shapes.drop (i + 1)).length := by omega
  have hget : ∀ (k : ℕ) (hk : k < (shapes.drop (i + 1)).length),
      (shapes.drop (i + 1)).get ⟨k, hk⟩ =
        shapes.get ⟨i + 1 + k, by omega⟩ := by
    intro k hk
    simp [List.getElem_drop]
  have hfu : findUnionAux G (shapes.get ⟨i, hi⟩) (shapes.drop (i + 1)) (i + 1) =
      some (r, (i + 1) + (j - (i + 1))) := by
    refine findUnionAux_first G (shapes.get ⟨i, hi⟩) (shapes.drop (i + 1))
      (i + 1) (j - (i + 1)) ht r rest ?_ ?_
    · intro k hk x xs
      rw [hget k (lt_trans hk ht)]
      exact hfirst (i + 1 + k) (by omega) (by omega) (by omega) x xs
    · rw [hget (j - (i + 1)) ht]
      have : i + 1 + (j - (i + 1)) = j := by omega
      rw [show shapes.get ⟨i + 1 + (j - (i + 1)), by omega⟩ =
          shapes.get ⟨j, hj⟩ from by congr 1; exact Fin.ext this]
      exact hhit
  have hfu2 : findUnion G shapes (shapes.get ⟨i, hi⟩) i = some (r, j) := by
    rw [findUnion, hfu]
    congr 2
    omega
  simp only [unionStep]
  rw [dif_pos hi, hfu2]

/-- C6 witness: a concrete step at the witness geometry, where the union
clip at `j = 1` returns one shape. -/
theorem c6_witness :
    unionStep WitGeo (([(), ()] : List WitGeo.Shape), 0) =
      some (([(), ()].set 0 ()).eraseIdx 1, 0) :=
  c6_union_first_result WitGeo [(), ()] 0 1 (by decide) (by decide) () []
    (fun j2 hj2 h1 h2 x xs => absurd h1 (by omega)) rfl

instance : IsTotal (N × N) (fun a b => a.1 ≤ b.1) := ⟨fun a b => le_total a.1 b.1⟩

instance : IsTrans (N × N) (fun a b => a.1 ≤ b.1) := ⟨fun _ _ _ => le_trans⟩

theorem cutLanePath_snd (G : Geo) (gesture_side_id : GestureSideID)
    (raw_lane_path : G.Path) (inters : List (IntersectionPrototype G)) :
    (cutLanePath G gesture_side_id raw_lane_path inters).2 =
      (windows2 (((-1.0 : N),
          (cutFold G gesture_side_id raw_lane_path inters
            ⟨0.0, G.length raw_lane_path, []⟩).1.start_trim) ::
        sortCuts (cutFold G gesture_side_id raw_lane_path inters
          ⟨0.0, G.length raw_lane_path, []⟩).1.cuts ++
        [((cutFold G gesture_side_id raw_lane_path inters
            ⟨0.0, G.length raw_lane_path, []⟩).1.end_trim,
          G.length raw_lane_path + 1.0)])).filterMap
        (fun two_cuts => G.subsection raw_lane_path two_cuts.1.2 two_cuts.2.1) := rfl

theorem cutFold_no_crossing (G : Geo) (gesture_side_id : GestureSideID)
    (raw_lane_path : G.Path) :
    ∀ (inters : List (IntersectionPrototype G)) (st : CutState),
      (∀ inter ∈ inters, G.intersect raw_lane_path (G.outline inter.shape) = []) →
      (cutFold G gesture_side_id raw_lane_path inters st).1 = st := by
  intro inters
  induction inters with
  | nil =>
    intro st _
    rfl
  | cons inter rest ih =>
    intro st h
    have hempty := h inter (List.mem_cons_self _ _)
    have hproc : processIntersection G gesture_side_id raw_lane_path st inter =
        (st, inter) := by
      simp [processIntersection, hempty]
    show (cutFold G gesture_side_id raw_lane_path rest
      (processIntersection G gesture_side_id raw_lane_path st inter).1).1 = st
    rw [hproc]
    exact ih st (fun i hi => h i (List.mem_cons_of_mem _ hi))

/-- C2: per raw lane, after processing all intersections the recorded cuts
are sorted ascending by entry distance, the sentinels `(−1, start_trim)`
and `(end_trim, length + 1)` are prepended and appended, every adjacent
pair of the extended list emits `subsection(exit_a, entry_b)` exactly when
that subsection is non-empty, and a lane that crosses no intersection is
emitted as the single subsection from `0` to its length. -/
theorem c2_cut_list_emission (G : Geo) (gesture_side_id : GestureSideID)
    (raw_lane_path : G.Path) (inters : List (IntersectionPrototype G))
    (st : CutState)
    (hst : st = (cutFold G gesture_side_id raw_lane_path inters
      ⟨0.0, G.length raw_lane_path, []⟩).1)
    (extended : List (N × N))
    (hext : extended = ((-1.0 : N), st.start_trim) ::
      sortCuts st.cuts ++ [(st.end_trim, G.length raw_lane_path + 1.0)]) :
    List.Sorted (fun a b : N × N => a.1 ≤ b.1) (sortCuts st.cuts) ∧
    (cutLanePath G gesture_side_id raw_lane_path inters).2 =
      (windows2 extended).filterMap (fun two_cuts =>
        G.subsection raw_lane_path two_cuts.1.2 two_cuts.2.1) ∧
    (∀ s, s ∈ (cutLanePath G gesture_side_id raw_lane_path inters).2 ↔
      ∃ two_cuts ∈ windows2 extended,
        G.subsection raw_lane_path two_cuts.1.2 two_cuts.2.1 = some s) ∧
    ((∀ inter ∈ inters, G.intersect raw_lane_path (G.outline inter.shape) = []) →
      ∀ w, G.subsection raw_lane_path 0.0 (G.length raw_lane_path) = some w →
        (cutLanePath G gesture_side_id raw_lane_path inters).2 = [w]) := by
  subst hext
  subst hst
  refine ⟨List.sorted_insertionSort _ _, cutLanePath_snd G gesture_side_id raw_lane_path inters,
    ?_, ?_⟩
  · intro s
    rw [cutLanePath_snd G gesture_side_id raw_lane_path inters]
    exact List.mem_filterMap
  · intro hempty w hw
    rw [cutLanePath_snd G gesture_side_id raw_lane_path inters,
      cutFold_no_crossing G gesture_side_id raw_lane_path inters _ hempty]
    simp [sortCuts, windows2, List.insertionSort, hw]

/-- C2 witness: at the trivial geometry with no intersections the single
full-length subsection is emitted. -/
theorem c2_witness :
    (cutLanePath TrivGeo (GestureSideID.new_forward 0) () []).2 = [()] := by
  have H := c2_cut_list_emission TrivGeo (GestureSideID.new_forward 0) () [] _ rfl _ rfl
  exact H.2.2.2 (by simp) () rfl

/-- C8: a window of two consecutive band-outline intersections produces a
transfer-lane fragment exactly when the mapped left-centerline distances
increase (`s0l < s1l`), the two centerline midpoints are within
`TRANSFER_LANE_DISTANCE_TOLERANCE = 0.3`, and the right-path subsection
between the mapped right distances is non-empty; the emitted fragment is
exactly that subsection. -/
theorem c8_transfer_window_iff (G : Geo) (right_path left_path : G.Path)
    (right_band left_band : Band G) (pair : IntersectionPoint × IntersectionPoint)
    (s0r s1r s0l s1l : N)
    (h0r : s0r = bandDistToPath G right_band pair.1.along_a)
    (h1r : s1r = bandDistToPath G right_band pair.2.along_a)
    (h0l : s0l = bandDistToPath G left_band pair.1.along_b)
    (h1l : s1l = bandDistToPath G left_band pair.2.along_b)
    (frag : G.Path) :
    (transferWindow G right_path left_path right_band left_band pair = some frag ↔
      (s0l < s1l ∧
        G.is_roughly_within_p2 (G.along right_path ((s0r + s1r) / 2.0))
          (G.along left_path ((s0l + s1l) / 2.0))
          TRANSFER_LANE_DISTANCE_TOLERANCE = true ∧
        G.subsection right_path s0r s1r = some frag)) ∧
    TRANSFER_LANE_DISTANCE_TOLERANCE = 0.3 := by
  subst h0r h1r h0l h1l
  refine ⟨?_, rfl⟩
  simp only [transferWindow]
  by_cases h1 : bandDistToPath G left_band pair.1.along_b <
      bandDistToPath G left_band pair.2.along_b
  · rw [if_pos h1]
    by_cases h2 : G.is_roughly_within_p2
        (G.along right_path ((bandDistToPath G right_band pair.1.along_a +
          bandDistToPath G right_band pair.2.along_a) / 2.0))
        (G.along left_path ((bandDistToPath G left_band pair.1.along_b +
          bandDistToPath G left_band pair.2.along_b) / 2.0))
        TRANSFER_LANE_DISTANCE_TOLERANCE = true
    · rw [if_pos h2]
      simp [h1, h2]
    · rw [if_neg h2]
      simp [h1, h2]
  · rw [if_neg h1]
    simp [h1]

/-- C8 witness: a concrete accepted window at the witness geometry. -/
theorem c8_witness :
    transferWindow WitGeo () () (Band.mk () TRANSFER_LANE_DISTANCE_TOLERANCE)
      (Band.mk () TRANSFER_LANE_DISTANCE_TOLERANCE)
      (⟨1, 0, ⟨0, 0⟩⟩, ⟨5, 1, ⟨0, 0⟩⟩) = some () := by
  have H := c8_transfer_window_iff WitGeo () ()
    (Band.mk () TRANSFER_LANE_DISTANCE_TOLERANCE)
    (Band.mk () TRANSFER_LANE_DISTANCE_TOLERANCE)
    (⟨1, 0, ⟨0, 0⟩⟩, ⟨5, 1, ⟨0, 0⟩⟩) _ _ _ _ rfl rfl rfl rfl ()
  exact H.1.mpr ⟨by decide, rfl, rfl⟩

/-- C5: the pavement outline of a smoothed path: the right edge is the
forward-offset shift, reversed (the path itself when there are no forward
lanes; the reversed path when the shift fails); the left edge is the
negative backward offset, not reversed (with the analogous fallbacks); and
the outline segments are the left segments, the connecting line from left
end to right start, the right segments, and the closing line from right
end to left start, in that order. -/
theorem c5_pavement_outline (G : Geo) (road_intent : RoadIntent) (path : G.Path) :
    (road_intent.n_lanes_forward = 0 → pavementRightPath G road_intent path = path) ∧
    (∀ q, road_intent.n_lanes_forward ≠ 0 →
      G.shift_orthogonally path
          ((road_intent.n_lanes_forward : N) * LANE_DISTANCE + 0.4 * LANE_DISTANCE) =
        some q →
      pavementRightPath G road_intent path = G.reverse q) ∧
    (road_intent.n_lanes_forward ≠ 0 →
      G.shift_orthogonally path
          ((road_intent.n_lanes_forward : N) * LANE_DISTANCE + 0.4 * LANE_DISTANCE) =
        none →
      pavementRightPath G road_intent path = G.reverse path) ∧
    (road_intent.n_lanes_backward = 0 → pavementLeftPath G road_intent path = path) ∧
    (∀ q, road_intent.n_lanes_backward ≠ 0 →
      G.shift_orthogonally path
          (-((road_intent.n_lanes_backward : N) * LANE_DISTANCE + 0.4 * LANE_DISTANCE)) =
        some q →
      pavementLeftPath G road_intent path = q) ∧
    (road_intent.n_lanes_backward ≠ 0 →
      G.shift_orthogonally path
          (-((road_intent.n_lanes_backward : N) * LANE_DISTANCE + 0.4 * LANE_DISTANCE)) =
        none →
      pavementLeftPath G road_intent path = path) ∧
    (∀ s1 s2,
      G.segment_line (G.endPoint (pavementLeftPath G road_intent path))
          (G.start (pavementRightPath G road_intent path)) = some s1 →
      G.segment_line (G.endPoint (pavementRightPath G road_intent path))
          (G.start (pavementLeftPath G road_intent path)) = some s2 →
      pavementOutlineSegments G road_intent path =
        G.segments (pavementLeftPath G road_intent path) ++ [s1] ++
          G.segments (pavementRightPath G road_intent path) ++ [s2]) := by
  refine ⟨?_, ?_, ?_, ?_, ?_, ?_, ?_⟩
  · intro h
    simp [pavementRightPath, h]
  · intro q h hs
    simp [pavementRightPath, h, hs, expectD]
  · intro h hs
    simp [pavementRightPath, h, hs, expectD]
  · intro h
    simp [pavementLeftPath, h]
  · intro q h hs
    simp only [pavementLeftPath, if_neg h, hs, expectD, Option.getD]
  · intro h hs
    simp only [pavementLeftPath, if_neg h, hs, expectD, Option.getD]
  · intro s1 s2 hs1 hs2
    simp only [pavementOutlineSegments]
    rw [hs1, hs2]
    simp

/-- C5 witness: concrete evaluations at the witness geometry, where the
shifts and connecting lines succeed. -/
theorem c5_witness :
    pavementRightPath WitGeo (RoadIntent.mk 1 1) () = WitGeo.reverse () ∧
    pavementOutlineSegments WitGeo (RoadIntent.mk 1 1) () =
      WitGeo.segments () ++ [()] ++ WitGeo.segments () ++ [()] := by
  have H := c5_pavement_outline WitGeo (RoadIntent.mk 1 1) ()
  exact ⟨H.2.1 () (by decide) rfl, H.2.2.2.2.2.2 () () rfl rfl⟩

end CB
